import Mathlib

/-!
Verification development for the ST-Manager automation core
(`src/core/automation/forum_tag_fetcher.py` and
`src/core/services/automation_service.py`), as a shallow embedding.

HTML tokenization by Python's `html.parser.HTMLParser` is abstracted into a
stream of events (`start tag class`, `stop tag`, `data text`); the scanner's
handler methods are translated verbatim on that stream.  Network access and
the out-of-scope collaborators (config loader, ruleset lookup, card cache,
UI store, rule engine, plan executor) are oracle parameters supplied by the
caller, matching the spec's "interfaces only" boundary.
-/

namespace STManager

/-- Python `needle` is a prefix of `hay` (used to build substring search). -/
def leadsWith : List Char → List Char → Bool
  | [], _ => true
  | _ :: _, [] => false
  | a :: as, b :: bs => a == b && leadsWith as bs

/-- `hasSub needle hay`: `needle` occurs contiguously in `hay`. -/
def hasSub (needle : List Char) : List Char → Bool
  | [] => leadsWith needle []
  | c :: cs => leadsWith needle (c :: cs) || hasSub needle cs

/-- Python's `needle in hay` substring test on strings. -/
def strContains (hay needle : String) : Bool :=
  hasSub needle.toList hay.toList

/-- The characters Python's `\s` regex class and `str.strip()` treat as
whitespace (ASCII range; the documents at issue are ASCII-classed). -/
def isPySpace (c : Char) : Bool :=
  c == ' ' || c == '\t' || c == '\n' || c == '\x0d' || c == '\x0b' || c == '\x0c'

/-- Match of the regex `pill_a2c9e8\s+small_a2c9e8` anchored at the head of
the character list: the first literal, then one or more whitespace
characters, then the second literal. -/
def pillPatAt (cs : List Char) : Bool :=
  if leadsWith "pill_a2c9e8".toList cs then
    let rest := cs.drop 11
    let ws := rest.takeWhile isPySpace
    !ws.isEmpty && leadsWith "small_a2c9e8".toList (rest.drop ws.length)
  else false

/-- `re.search` of the pill pattern: try every start position. -/
def pillSearch : List Char → Bool
  | [] => pillPatAt []
  | c :: cs => pillPatAt (c :: cs) || pillSearch cs

/-- `self.tag_class_pattern.search(class_attr)` as a Boolean. -/
def tagClassPatternSearch (s : String) : Bool :=
  pillSearch s.toList

/-- Python `str.strip()`: drop whitespace from both ends. -/
def pyStrip (s : String) : String :=
  ⟨((s.toList.dropWhile isPySpace).reverse.dropWhile isPySpace).reverse⟩

/-- Python `s.startswith(pre)`. -/
def pyStartsWith (s pre : String) : Bool :=
  leadsWith pre.toList s.toList

/-- Python `s.endswith(suf)`. -/
def pyEndsWith (s suf : String) : Bool :=
  leadsWith suf.toList.reverse s.toList.reverse

/-- Python `s.lower()` (ASCII case folding; the compared strings are
ASCII). -/
def pyLower (s : String) : String :=
  ⟨s.toList.map Char.toLower⟩

/-- The mutable fields of `NaobaijinTagParser` (`__init__`, lines 16-28).
`current_tag_text` is kept already joined, since the Python list of chunks
is only ever `''.join`ed. -/
structure ScanState where
  tags : List String
  in_tag_pill : Bool
  current_tag_text : String
  div_depth : Int
  expecting_text : Bool
  in_main_tags_container : Bool
  main_container_depth : Int
deriving Repr, DecidableEq

/-- Parser state right after `__init__`. -/
def initScanState : ScanState :=
  { tags := [], in_tag_pill := false, current_tag_text := "", div_depth := 0,
    expecting_text := false, in_main_tags_container := false,
    main_container_depth := 0 }

/-- `NaobaijinTagParser.handle_starttag` (lines 30-60); `classAttr` is
`attrs_dict.get('class', '')`. -/
def handle_starttag (s : ScanState) (tag : String) (classAttr : String) : ScanState :=
  if tag == "div" then
    let s1 :=
      if strContains classAttr "tags_e5a45e" then
        { s with in_main_tags_container := true, main_container_depth := 1 }
      else if s.in_main_tags_container then
        { s with main_container_depth := s.main_container_depth + 1 }
      else s
    if s1.in_main_tags_container then
      if tagClassPatternSearch classAttr then
        if strContains classAttr "defaultColor__4bd52" then s1
        else
          { s1 with in_tag_pill := true, div_depth := 1, expecting_text := true,
                    current_tag_text := "" }
      else if s1.in_tag_pill then
        let s2 := { s1 with div_depth := s1.div_depth + 1 }
        if s2.expecting_text && strContains classAttr "lineClamp1__4bd52" then
          { s2 with expecting_text := false }
        else s2
      else s1
    else s1
  else s

/-- `NaobaijinTagParser.handle_endtag` (lines 62-80). -/
def handle_endtag (s : ScanState) (tag : String) : ScanState :=
  if tag == "div" then
    let s1 :=
      if s.in_main_tags_container then
        let d := s.main_container_depth - 1
        if d == 0 then
          { s with main_container_depth := d, in_main_tags_container := false }
        else
          { s with main_container_depth := d }
      else s
    if s1.in_tag_pill then
      let d := s1.div_depth - 1
      if d == 0 then
        let t := pyStrip s1.current_tag_text
        let tags' :=
          if t != "" && !pyStartsWith t "+" && !s1.tags.contains t then
            s1.tags ++ [t]
          else s1.tags
        { s1 with div_depth := d, tags := tags', in_tag_pill := false,
                  current_tag_text := "" }
      else
        { s1 with div_depth := d }
    else s1
  else s

/-- `NaobaijinTagParser.handle_data` (lines 82-84). -/
def handle_data (s : ScanState) (d : String) : ScanState :=
  if s.in_tag_pill then
    { s with current_tag_text := s.current_tag_text ++ d }
  else s

/-- One HTML event as delivered by `HTMLParser`: an opening tag together
with its `class` attribute value (`''` when absent), a closing tag, or a
text node. -/
inductive HtmlEvent where
  | start (tag : String) (classAttr : String)
  | stop (tag : String)
  | data (s : String)
deriving Repr, DecidableEq

/-- Dispatch of one event to the corresponding handler. -/
def scanStep (s : ScanState) : HtmlEvent → ScanState
  | .start t c => handle_starttag s t c
  | .stop t => handle_endtag s t
  | .data d => handle_data s d

/-- Feeding a whole event stream to a fresh parser. -/
def scanRun (evs : List HtmlEvent) : ScanState :=
  evs.foldl scanStep initScanState

/-- `ForumTagFetcher.NAOBAIJIN_DOMAINS` (lines 94-97). -/
def NAOBAIJIN_DOMAINS : List String :=
  ["naobaijin.app", "www.naobaijin.app"]

/-- Characters allowed after the leading letter of a URL scheme. -/
def isSchemeChar (c : Char) : Bool :=
  c.isAlphanum || c == '+' || c == '-' || c == '.'

/-- Model of `urllib.parse.urlparse`'s scheme splitting: when the input
starts with `letter (letter|digit|+|-|.)* :`, the scheme and the colon are
removed; otherwise the input is returned unchanged. -/
def splitScheme (cs : List Char) : List Char :=
  let pre := cs.takeWhile (fun c => c != ':')
  let okScheme :=
    match pre with
    | [] => false
    | c :: rest => c.isAlpha && rest.all isSchemeChar
  if decide (pre.length < cs.length) && okScheme then cs.drop (pre.length + 1)
  else cs

/-- Model of `urlparse(url).netloc`: present only when `//` follows the
(optional) scheme, and extends to the first `/`, `?` or `#`.  Userinfo and
ports are kept, exactly as `netloc` keeps them. -/
def netlocChars (cs : List Char) : List Char :=
  match splitScheme cs with
  | '/' :: '/' :: rest => rest.takeWhile (fun c => c != '/' && c != '?' && c != '#')
  | _ => []

/-- `urlparse(url).netloc` on strings. -/
def netloc (url : String) : String :=
  ⟨netlocChars url.toList⟩

/-- `ForumTagFetcher.is_valid_naobaijin_url` (lines 107-116): empty URL is
rejected, otherwise the lowercased netloc is tested with `str.endswith`
against each allow-list domain.  `urlparse` is modelled totally, so the
`except` arm of the source is unreachable here. -/
def is_valid_naobaijin_url (url : String) : Bool :=
  if url == "" then false
  else
    let domain := pyLower (netloc url)
    NAOBAIJIN_DOMAINS.any (fun d => pyEndsWith domain d)

/-- The `(tags, title, error)` triple returned by
`ForumTagFetcher._try_fetch` (lines 118-144): `tags` is `None` or the
parser's list, `title` is `None` or a non-empty extracted title. -/
structure TryResult where
  tags : Option (List String)
  title : Option String
  error : Option String
deriving Repr, DecidableEq

/-- The result dictionary of `ForumTagFetcher.fetch_tags`. -/
structure FetchResult where
  success : Bool
  tags : List String
  error : Option String
  title : Option String
deriving Repr, DecidableEq

/-- Python truthiness of the `tags` component (`if tags:`): `None` and the
empty list are falsy. -/
def pyTruthyTags : Option (List String) → Bool
  | none => false
  | some l => !l.isEmpty

/-- Python `a or b` on optional title strings (`None` and `''` are falsy). -/
def pyOrTitle : Option String → Option String → Option String
  | some s, b => if s == "" then b else some s
  | none, b => b

/-- Python `url.rstrip('/')`: remove every trailing slash. -/
def rstripSlash (s : String) : String :=
  ⟨(s.toList.reverse.dropWhile (fun c => c == '/')).reverse⟩

/-- The fixed invalid-domain message of `fetch_tags` (line 162). -/
def invalidUrlMsg : String := "无效的类脑论坛URL"

/-- The fixed tags-not-found message of `fetch_tags` (line 201). -/
def noTagsMsg : String := "未找到标签信息，帖子可能需要登录或页面格式不符"

/-- `ForumTagFetcher.fetch_tags` (lines 146-203), with `_try_fetch`
abstracted as the oracle `tf` (it wraps HTTP plus scanning; network errors
show up as `tags = none` with an error text, exactly as in the source). -/
def fetch_tags (tf : String → TryResult) (url : String) : FetchResult :=
  if !is_valid_naobaijin_url url then
    { success := false, tags := [], error := some invalidUrlMsg, title := none }
  else
    let u := rstripSlash url
    let r1 := tf (u ++ "/0")
    if pyTruthyTags r1.tags then
      { success := true, tags := r1.tags.getD [], error := none, title := r1.title }
    else
      let r2 := tf u
      if pyTruthyTags r2.tags then
        { success := true, tags := r2.tags.getD [], error := none,
          title := pyOrTitle r2.title r1.title }
      else
        { success := false, tags := [], error := some noTagsMsg,
          title := pyOrTitle r1.title r2.title }

/-- The loop body of `TagProcessor.process` (lines 248-263), with the
result accumulator explicit.  The exclude set and the replace dict are
passed as a membership list and an association list. -/
def processGo (exclude : List String) (rules : List (String × String)) :
    List String → List String → List String
  | result, [] => result
  | result, t :: ts =>
    if exclude.contains t then processGo exclude rules result ts
    else
      let p := (List.lookup t rules).getD t
      if result.contains p then processGo exclude rules result ts
      else processGo exclude rules (result ++ [p]) ts

/-- `TagProcessor.process` for a processor constructed with the given
`exclude_tags` and `replace_rules`. -/
def process (exclude : List String) (rules : List (String × String))
    (tags : List String) : List String :=
  processGo exclude rules [] tags

/-- `TagProcessor.merge_tags` (lines 265-283): `replace` returns a copy of
`new_tags`; any other mode starts from `existing_tags` and appends each new
tag not already present. -/
def merge_tags (existing new : List String) (mode : String) : List String :=
  if mode == "replace" then new
  else new.foldl (fun m t => if m.contains t then m else m ++ [t]) existing

/-- Order-preserving first-occurrence deduplication, accumulator form
(used to characterize `process`). -/
def dedupGo : List String → List String → List String
  | acc, [] => acc
  | acc, x :: xs =>
    if acc.contains x then dedupGo acc xs else dedupGo (acc ++ [x]) xs

/-- Order-preserving deduplication keeping first occurrences. -/
def dedupKeepFirst (l : List String) : List String :=
  dedupGo [] l

/-! ### `src/core/services/automation_service.py` -/

/-- A Python value as far as the automation service inspects one: `None`,
a bool, a string, or a dict with string keys. -/
inductive PyVal where
  | pynone
  | pybool (b : Bool)
  | pystr (s : String)
  | pydict (entries : List (String × PyVal))

mutual

/-- Structural equality on `PyVal` (Python `==`/hash equality on these
values). -/
def pyValBeq : PyVal → PyVal → Bool
  | .pynone, .pynone => true
  | .pybool a, .pybool b => a == b
  | .pystr a, .pystr b => a == b
  | .pydict a, .pydict b => pyEntriesBeq a b
  | _, _ => false

/-- Structural equality on dict entry lists. -/
def pyEntriesBeq : List (String × PyVal) → List (String × PyVal) → Bool
  | [], [] => true
  | (k1, v1) :: r1, (k2, v2) :: r2 =>
    k1 == k2 && pyValBeq v1 v2 && pyEntriesBeq r1 r2
  | _, _ => false

end

instance : BEq PyVal := ⟨pyValBeq⟩

/-- Python truthiness of a `PyVal` (`if not v:`). -/
def pyTruthy : PyVal → Bool
  | .pynone => false
  | .pybool b => b
  | .pystr s => s != ""
  | .pydict d => !d.isEmpty

/-- Truthiness of an optional string (`cfg.get(...)` result: absent, empty
or non-empty). -/
def pyTruthyOptStr : Option String → Bool
  | none => false
  | some s => s != ""

/-- Truthiness of an optional `PyVal` (`dict.get` result). -/
def pyTruthyOptVal : Option PyVal → Bool
  | none => false
  | some v => pyTruthy v

/-- One evaluated rule action `{type, value}`. -/
structure RuleAction where
  type : String
  value : PyVal

/-- Modelled from the spec: the constant `ACT_FETCH_FORUM_TAGS` is imported
from `core.automation.constants`, a module absent from the sources; the
spec's example action lists write the type as `"fetch_forum_tags"`.  Only
its identity as one fixed string matters to the hooks. -/
def ACT_FETCH_FORUM_TAGS : String := "fetch_forum_tags"

/-- The `exec_plan` dictionary built by both hooks.  The Python sets
`add_tags`/`remove_tags` are modelled as duplicate-free lists in insertion
order. -/
structure ExecPlan where
  move : Option PyVal
  add_tags : List PyVal
  remove_tags : List PyVal
  favorite : Option Bool
  fetch_forum_tags : Option PyVal

/-- The all-`None`/empty plan both hooks start from. -/
def emptyExecPlan : ExecPlan :=
  { move := none, add_tags := [], remove_tags := [], favorite := none,
    fetch_forum_tags := none }

/-- Python `set.add`: insert if not already present. -/
def pySetAdd (s : List PyVal) (v : PyVal) : List PyVal :=
  if s.contains v then s else s ++ [v]

/-- Python `str(v).lower() == 'true'` on the values that can occur as a
`set_favorite` action value (`str` of a bool is `"True"`/`"False"`, of a
string the string itself; `None`/dict renderings never equal `"true"`). -/
def pyStrLowerIsTrue : PyVal → Bool
  | .pystr s => pyLower s == "true"
  | .pybool b => b
  | _ => false

/-- The plan-translation loop of `auto_run_rules_on_card` (lines 56-77):
`move_folder` overwrites, `add_tag`/`remove_tag` accumulate into sets,
`set_favorite` parses a boolean, `ACT_FETCH_FORUM_TAGS` is skipped
(`continue`), unknown types fall through. -/
def buildImportPlan (actions : List RuleAction) : ExecPlan :=
  actions.foldl
    (fun plan act =>
      if act.type == "move_folder" then { plan with move := some act.value }
      else if act.type == "add_tag" then
        { plan with add_tags := pySetAdd plan.add_tags act.value }
      else if act.type == "remove_tag" then
        { plan with remove_tags := pySetAdd plan.remove_tags act.value }
      else if act.type == "set_favorite" then
        { plan with favorite := some (pyStrLowerIsTrue act.value) }
      else plan)
    emptyExecPlan

/-- The loop of `auto_run_forum_tags_on_link_update` (lines 126-134): the
first `ACT_FETCH_FORUM_TAGS` action wins (`break`); a dict value is taken
as is, any other value becomes the empty dict. -/
def firstFetchConfig : List RuleAction → Option PyVal
  | [] => none
  | a :: rest =>
    if a.type == ACT_FETCH_FORUM_TAGS then
      some (match a.value with
        | .pydict d => .pydict d
        | _ => .pydict [])
    else firstFetchConfig rest

/-- The dictionaries the hooks can return: `{run: true, actions: 0}`,
`{run: true, actions: 0, reason: "no_fetch_forum_tags_action"}`, or
`{run: true, result: res}`. -/
inductive HookResult where
  | noActions
  | noFetchAction
  | applied (res : PyVal)

/-- The out-of-scope collaborators both hooks call, as oracles.  Each call
may raise (`Except.error`), exactly the failure modes the hooks' outer
`try/except` guards: `load_config` is folded with
`cfg.get('active_automation_ruleset')`; `evaluate` stands for context
assembly plus `engine.evaluate(...)['actions']`; `apply_plan` receives the
plan and the loaded UI data. -/
structure HookEnv where
  load_config : Except String (Option String)
  get_ruleset : String → Except String (Option PyVal)
  card_lookup : Except String (Option PyVal)
  load_ui_data : Except String PyVal
  resolve_ui_key : Except String PyVal
  evaluate : Except String (List RuleAction)
  apply_plan : ExecPlan → PyVal → Except String PyVal

/-- The `try:` block of `auto_run_rules_on_card` (lines 21-83): each
collaborator failure propagates as `Except.error`; a normal `return None`
is `Except.ok none`. -/
def bodyA (env : HookEnv) : Except String (Option HookResult) :=
  match env.load_config with
  | .error e => .error e
  | .ok active =>
    if !pyTruthyOptStr active then .ok none
    else
      match env.get_ruleset (active.getD "") with
      | .error e => .error e
      | .ok rs =>
        if !pyTruthyOptVal rs then .ok none
        else
          match env.card_lookup with
          | .error e => .error e
          | .ok card =>
            if !pyTruthyOptVal card then .ok none
            else
              match env.load_ui_data with
              | .error e => .error e
              | .ok ui =>
                match env.resolve_ui_key with
                | .error e => .error e
                | .ok _k =>
                  match env.evaluate with
                  | .error e => .error e
                  | .ok actions =>
                    if actions.isEmpty then .ok (some .noActions)
                    else
                      match env.apply_plan (buildImportPlan actions) ui with
                      | .error e => .error e
                      | .ok res => .ok (some (.applied res))

/-- `auto_run_rules_on_card` (lines 16-87): the body with its outer
`except Exception: ... return None`. -/
def auto_run_rules_on_card (env : HookEnv) : Option HookResult :=
  match bodyA env with
  | .ok r => r
  | .error _ => none

/-- The `try:` block of `auto_run_forum_tags_on_link_update`
(lines 95-152). -/
def bodyB (env : HookEnv) : Except String (Option HookResult) :=
  match env.load_config with
  | .error e => .error e
  | .ok active =>
    if !pyTruthyOptStr active then .ok none
    else
      match env.get_ruleset (active.getD "") with
      | .error e => .error e
      | .ok rs =>
        if !pyTruthyOptVal rs then .ok none
        else
          match env.card_lookup with
          | .error e => .error e
          | .ok card =>
            if !pyTruthyOptVal card then .ok none
            else
              match env.load_ui_data with
              | .error e => .error e
              | .ok ui =>
                match env.resolve_ui_key with
                | .error e => .error e
                | .ok _k =>
                  match env.evaluate with
                  | .error e => .error e
                  | .ok actions =>
                    if actions.isEmpty then .ok (some .noActions)
                    else
                      let cfg := firstFetchConfig actions
                      if !pyTruthyOptVal cfg then .ok (some .noFetchAction)
                      else
                        match env.apply_plan
                            { emptyExecPlan with fetch_forum_tags := cfg } ui with
                        | .error e => .error e
                        | .ok res => .ok (some (.applied res))

/-- `auto_run_forum_tags_on_link_update` (lines 90-156): the body with its
outer `except Exception: ... return None`. -/
def auto_run_forum_tags_on_link_update (env : HookEnv) : Option HookResult :=
  match bodyB env with
  | .ok r => r
  | .error _ => none

/-! ### Specification-side definitions, for comparison with the code -/

/-- The host criterion in the spec's words: the URL's host equals an
allow-list domain or is an exact subdomain of one (separated by a dot). -/
def hostAllowedSpec (url : String) : Bool :=
  let h := pyLower (netloc url)
  NAOBAIJIN_DOMAINS.any (fun d => h == d || pyEndsWith h ("." ++ d))

/-- The container flag the pill logic consults on a div-open: the opening
div itself counts as inside when its class carries the primary marker. -/
def inMainAfterOpen (s : ScanState) (classAttr : String) : Bool :=
  strContains classAttr "tags_e5a45e" || s.in_main_tags_container

/-- The amended pill discipline for a div-open, from the corrected claim's
words: inside the container, a pill-pattern class without the exclusion
marker always (re)enters `IN_PILL` with depth 1 and a cleared buffer, even
when already `IN_PILL`; a pill-pattern class with the exclusion marker
changes nothing; any other div-open increments the depth only when already
`IN_PILL`; outside the container nothing changes.  The value is the tuple
`(in_tag_pill, div_depth, current_tag_text)`. -/
def pillOpenSpec (s : ScanState) (classAttr : String) : Bool × Int × String :=
  if inMainAfterOpen s classAttr then
    if tagClassPatternSearch classAttr then
      if strContains classAttr "defaultColor__4bd52" then
        (s.in_tag_pill, s.div_depth, s.current_tag_text)
      else (true, 1, "")
    else if s.in_tag_pill then (true, s.div_depth + 1, s.current_tag_text)
    else (s.in_tag_pill, s.div_depth, s.current_tag_text)
  else (s.in_tag_pill, s.div_depth, s.current_tag_text)

/-- The pill discipline for a div-close, from the claim's words: while
`IN_PILL` the depth decrements, and at 0 the pill is finalized — the
trimmed buffer is appended exactly when it is non-empty, does not start
with `"+"` and is not yet present.  The value is the tuple
`(in_tag_pill, div_depth, current_tag_text, tags)`. -/
def pillCloseSpec (s : ScanState) : Bool × Int × String × List String :=
  if s.in_tag_pill then
    let d := s.div_depth - 1
    if d = 0 then
      let t := pyStrip s.current_tag_text
      (false, d, "",
        if t ≠ "" ∧ pyStartsWith t "+" = false ∧ t ∉ s.tags then s.tags ++ [t]
        else s.tags)
    else (true, d, s.current_tag_text, s.tags)
  else (s.in_tag_pill, s.div_depth, s.current_tag_text, s.tags)

/-- The amended container discipline for a div-open, from the corrected
claim's words: a class carrying the primary marker always (re)sets the
state to `IN_MAIN_CONTAINER` with depth 1 — also when already inside; any
other div-open increments the depth only when already inside.  The value
is the pair `(in_main_tags_container, main_container_depth)`. -/
def mainOpenSpec (s : ScanState) (classAttr : String) : Bool × Int :=
  if strContains classAttr "tags_e5a45e" then (true, 1)
  else if s.in_main_tags_container then (true, s.main_container_depth + 1)
  else (s.in_main_tags_container, s.main_container_depth)

/-- The container discipline for a div-close, from the claim's words:
while `IN_MAIN_CONTAINER` the depth decrements and the state returns to
`OUTSIDE` exactly at depth 0. -/
def mainCloseSpec (s : ScanState) : Bool × Int :=
  if s.in_main_tags_container then
    (if s.main_container_depth - 1 = 0 then false else true,
      s.main_container_depth - 1)
  else (s.in_main_tags_container, s.main_container_depth)

/-- Whether an evaluated action list carries a fetch-forum-tags action. -/
def hasFetchAction (acts : List RuleAction) : Bool :=
  acts.any (fun a => a.type == ACT_FETCH_FORUM_TAGS)

/-! ### Concrete fixtures for counterexamples and witnesses -/

/-- Scan prefix reaching a nested position inside a pill: main container
opened, a pill opened, one data chunk, one plain nested div. -/
def pillReentryPre : ScanState :=
  scanRun [.start "div" "tags_e5a45e",
           .start "div" "pill_a2c9e8 small_a2c9e8",
           .data "A",
           .start "div" "x"]

/-- A `_try_fetch` oracle for the spec's normalization example: the `/0`
page has a title but no tags, the bare page has tags but no title. -/
def tfDemo : String → TryResult :=
  fun s =>
    if s == "https://naobaijin.app/t/123/0" then
      { tags := none, title := some "T1", error := some "未找到标签" }
    else if s == "https://naobaijin.app/t/123" then
      { tags := some ["tag1"], title := none, error := none }
    else { tags := none, title := none, error := some "err" }

/-- An evaluated action list whose only fetch-forum-tags action carries an
empty configuration dict. -/
def emptyCfgActions : List RuleAction :=
  [{ type := ACT_FETCH_FORUM_TAGS, value := .pydict [] }]

/-- Well-behaved collaborators delivering `emptyCfgActions`. -/
def envEmptyCfg : HookEnv :=
  { load_config := .ok (some "rs1")
    get_ruleset := fun _ => .ok (some (.pydict [("name", .pystr "rs")]))
    card_lookup := .ok (some (.pydict [("id", .pystr "c1")]))
    load_ui_data := .ok (.pydict [])
    resolve_ui_key := .ok (.pystr "k")
    evaluate := .ok emptyCfgActions
    apply_plan := fun _ _ => .ok (.pystr "applied") }

/-- The spec's link-update example action list: an `add_tag`, then a fetch
action with a non-empty configuration, then a second fetch action. -/
def demoActions : List RuleAction :=
  [{ type := "add_tag", value := .pystr "x" },
   { type := ACT_FETCH_FORUM_TAGS, value := .pydict [("exclude", .pystr "其他")] },
   { type := ACT_FETCH_FORUM_TAGS, value := .pydict [] }]

/-- Well-behaved collaborators delivering `demoActions`. -/
def envDemo : HookEnv :=
  { load_config := .ok (some "rs1")
    get_ruleset := fun _ => .ok (some (.pydict [("name", .pystr "rs")]))
    card_lookup := .ok (some (.pydict [("id", .pystr "c1")]))
    load_ui_data := .ok (.pydict [])
    resolve_ui_key := .ok (.pystr "k")
    evaluate := .ok demoActions
    apply_plan := fun _ _ => .ok (.pystr "applied") }

/-- Collaborators that all raise. -/
def envErr : HookEnv :=
  { load_config := .error "boom"
    get_ruleset := fun _ => .error "boom"
    card_lookup := .error "boom"
    load_ui_data := .error "boom"
    resolve_ui_key := .error "boom"
    evaluate := .error "boom"
    apply_plan := fun _ _ => .error "boom" }

/-! ### Helper lemmas -/

theorem nodup_append_singleton {l : List String} {a : String}
    (h : l.Nodup) (ha : a ∉ l) : (l ++ [a]).Nodup := by
  simp [List.nodup_append, h, ha]

theorem handle_starttag_tags_eq (s : ScanState) (tag c : String) :
    (handle_starttag s tag c).tags = s.tags := by
  simp only [handle_starttag]
  (repeat' split) <;> rfl

theorem handle_data_tags_eq (s : ScanState) (d : String) :
    (handle_data s d).tags = s.tags := by
  simp only [handle_data]
  split <;> rfl

theorem handle_endtag_tags_nodup (s : ScanState) (tag : String)
    (h : s.tags.Nodup) : (handle_endtag s tag).tags.Nodup := by
  simp only [handle_endtag]
  (repeat' split) <;> simp_all <;>
    first
      | assumption
      | (apply nodup_append_singleton <;> simp_all)

theorem scanStep_tags_nodup (s : ScanState) (e : HtmlEvent)
    (h : s.tags.Nodup) : (scanStep s e).tags.Nodup := by
  cases e with
  | start t c => simpa [scanStep, handle_starttag_tags_eq] using h
  | stop t => exact handle_endtag_tags_nodup s t h
  | data d => simpa [scanStep, handle_data_tags_eq] using h

theorem foldl_scanStep_tags_nodup :
    ∀ (evs : List HtmlEvent) (s : ScanState), s.tags.Nodup →
      (evs.foldl scanStep s).tags.Nodup := by
  intro evs
  induction evs with
  | nil => intro s h; exact h
  | cons e evs ih =>
    intro s h
    exact ih (scanStep s e) (scanStep_tags_nodup s e h)

theorem dedupGo_nodup :
    ∀ (l acc : List String), acc.Nodup → (dedupGo acc l).Nodup := by
  intro l
  induction l with
  | nil => intro acc h; exact h
  | cons x xs ih =>
    intro acc h
    by_cases hx : x ∈ acc
    · simpa [dedupGo, hx] using ih acc h
    · simp only [dedupGo]
      rw [if_neg (by simp [hx])]
      exact ih _ (nodup_append_singleton h hx)

theorem mergeFoldGo_nodup :
    ∀ (new acc : List String), acc.Nodup →
      (new.foldl (fun m t => if m.contains t then m else m ++ [t]) acc).Nodup := by
  intro new
  induction new with
  | nil => intro acc h; exact h
  | cons t ts ih =>
    intro acc h
    simp only [List.foldl_cons]
    by_cases ht : t ∈ acc
    · rw [if_pos (by simp [ht])]
      exact ih acc h
    · rw [if_neg (by simp [ht])]
      exact ih _ (nodup_append_singleton h ht)

theorem processGo_eq (ex : List String) (rules : List (String × String)) :
    ∀ (ts acc : List String),
      processGo ex rules acc ts =
        dedupGo acc ((ts.filter (fun t => !ex.contains t)).map
          (fun t => (List.lookup t rules).getD t)) := by
  intro ts
  induction ts with
  | nil => intro acc; rfl
  | cons t ts ih =>
    intro acc
    by_cases hm : t ∈ ex
    · simp [processGo, List.filter_cons, ih, hm]
    · by_cases hp : ((List.lookup t rules).getD t) ∈ acc
      · simp [processGo, List.filter_cons, dedupGo, ih, hm, hp]
      · simp [processGo, List.filter_cons, dedupGo, ih, hm, hp]

theorem pyTruthyTags_getD {o : Option (List String)} (h : pyTruthyTags o = true) :
    o.getD [] ≠ [] := by
  cases o with
  | none => simp [pyTruthyTags] at h
  | some l =>
    cases l with
    | nil => simp [pyTruthyTags] at h
    | cons a as => simp

/-! ### Claim theorems -/

/-- Claim C1, counterexample: inside the main container with the scanner
already `IN_PILL` at depth 2 (buffer `"A"`), a further div-open whose class
matches the pill pattern re-enters the pill state — the depth is reset to 1
and the buffer cleared — instead of incrementing the depth to 3 as the
claim ("only able to (re)enter when not already `IN_PILL`"; "every div open
increments the counter regardless of class") requires. -/
theorem pill_reentry_refutes :
    pillReentryPre.in_tag_pill = true ∧
    pillReentryPre.div_depth = 2 ∧
    pillReentryPre.current_tag_text = "A" ∧
    (handle_starttag pillReentryPre "div" "pill_a2c9e8 small_a2c9e8").in_tag_pill = true ∧
    (handle_starttag pillReentryPre "div" "pill_a2c9e8 small_a2c9e8").current_tag_text = "" ∧
    ¬ (handle_starttag pillReentryPre "div" "pill_a2c9e8 small_a2c9e8").div_depth
        = pillReentryPre.div_depth + 1 := by decide

/-- Claim C1 (amended): inside the main container, a div-open matching the
pill pattern without the exclusion marker always (re)enters `IN_PILL` with
depth 1 and a cleared buffer — also when already `IN_PILL`; one matching
the exclusion marker leaves the pill state untouched; any other div-open
increments the depth exactly when already `IN_PILL`; every div-close while
`IN_PILL` decrements the depth, and at 0 the pill is finalized: the trimmed
buffer is appended iff non-empty, not starting with `"+"`, and not already
present. -/
theorem pill_step_characterization (s : ScanState) (c : String) :
    ((handle_starttag s "div" c).in_tag_pill,
      (handle_starttag s "div" c).div_depth,
      (handle_starttag s "div" c).current_tag_text) = pillOpenSpec s c ∧
    ((handle_endtag s "div").in_tag_pill,
      (handle_endtag s "div").div_depth,
      (handle_endtag s "div").current_tag_text,
      (handle_endtag s "div").tags) = pillCloseSpec s := by
  constructor
  · cases h1 : strContains c "tags_e5a45e" <;>
      cases h2 : s.in_main_tags_container <;>
        cases h3 : tagClassPatternSearch c <;>
          simp [handle_starttag, pillOpenSpec, inMainAfterOpen, h1, h2, h3] <;>
            (repeat' split) <;> simp_all
  · cases h5 : s.in_tag_pill <;>
      cases h2 : s.in_main_tags_container <;>
        simp [handle_endtag, pillCloseSpec, h5, h2] <;>
          (repeat' split) <;> simp_all [beq_iff_eq]

/-- Claim C2, counterexample: the validator accepts
`https://evilnaobaijin.app/x`, whose host is neither equal to nor a
subdomain of an allow-list domain — `str.endswith` performs a raw suffix
test, not a host comparison. -/
theorem url_suffix_refutes :
    is_valid_naobaijin_url "https://evilnaobaijin.app/x" = true ∧
    hostAllowedSpec "https://evilnaobaijin.app/x" = false := by decide

/-- Claim C2 (amended): `is_valid_naobaijin_url url` is true iff `url` is
non-empty and the lowercased netloc of the parsed URL has one of the
allow-list domains as a raw string suffix — this accepts equal hosts and
their subdomains, but also any host whose name merely ends in an
allow-list domain; the function is total (never raises). -/
theorem is_valid_url_characterization (url : String) :
    is_valid_naobaijin_url url = true ↔
      url ≠ "" ∧ ∃ d ∈ NAOBAIJIN_DOMAINS, pyEndsWith (pyLower (netloc url)) d = true := by
  by_cases h : url = "" <;> simp [is_valid_naobaijin_url, h, List.any_eq_true]

/-- Claim C3 (confirmed): for a URL passing validation, `fetch_tags`
strips trailing slashes, first fetches the normalized URL with `"/0"`
appended and returns success with attempt 1's title when that attempt
yields a non-empty tag sequence; otherwise it fetches the bare normalized
URL and on success uses attempt 2's title, falling back to attempt 1's
when attempt 2's is empty; when both attempts yield no tags it fails with
the fixed not-found message and whichever title was recovered.  The second
attempt is made whatever attempt 1's error was (a network failure shows up
as `tags = none` and does not stop the sequence). -/
theorem fetch_tags_two_attempt_strategy (tf : String → TryResult) (url : String)
    (hv : is_valid_naobaijin_url url = true) :
    (pyTruthyTags (tf (rstripSlash url ++ "/0")).tags = true →
      fetch_tags tf url =
        { success := true, tags := (tf (rstripSlash url ++ "/0")).tags.getD [],
          error := none, title := (tf (rstripSlash url ++ "/0")).title }) ∧
    (pyTruthyTags (tf (rstripSlash url ++ "/0")).tags = false →
      pyTruthyTags (tf (rstripSlash url)).tags = true →
      fetch_tags tf url =
        { success := true, tags := (tf (rstripSlash url)).tags.getD [],
          error := none,
          title := pyOrTitle (tf (rstripSlash url)).title
            (tf (rstripSlash url ++ "/0")).title }) ∧
    (pyTruthyTags (tf (rstripSlash url ++ "/0")).tags = false →
      pyTruthyTags (tf (rstripSlash url)).tags = false →
      fetch_tags tf url =
        { success := false, tags := [], error := some noTagsMsg,
          title := pyOrTitle (tf (rstripSlash url ++ "/0")).title
            (tf (rstripSlash url)).title }) := by
  refine ⟨fun h1 => ?_, fun h1 h2 => ?_, fun h1 h2 => ?_⟩
  · simp [fetch_tags, hv, h1]
  · simp [fetch_tags, hv, h1, h2]
  · simp [fetch_tags, hv, h1, h2]

/-- Witness for C3 at the spec's example: `".../t/123/"` normalizes to
`".../t/123"`, attempt 1 targets `".../t/123/0"` (title found, no tags),
attempt 2 the bare URL (tags found, empty title), so the result carries
attempt 1's title. -/
theorem fetch_tags_two_attempt_strategy_witness :
    fetch_tags tfDemo "https://naobaijin.app/t/123/" =
      { success := true, tags := ["tag1"], error := none, title := some "T1" } := by
  have h := (fetch_tags_two_attempt_strategy tfDemo "https://naobaijin.app/t/123/"
    (by decide)).2.1 (by decide) (by decide)
  exact h.trans (by decide)

/-- Claim C5, counterexample: a nested div-open whose class again contains
the primary-container marker resets the depth counter to 1 instead of
incrementing it to 2 as the claim requires. -/
theorem main_container_reset_refutes :
    (scanRun [.start "div" "tags_e5a45e"]).in_main_tags_container = true ∧
    (scanRun [.start "div" "tags_e5a45e"]).main_container_depth = 1 ∧
    ¬ (handle_starttag (scanRun [.start "div" "tags_e5a45e"]) "div"
        "tags_e5a45e").main_container_depth
      = (scanRun [.start "div" "tags_e5a45e"]).main_container_depth + 1 := by decide

/-- Claim C5 (amended): a div-open whose class contains the
primary-container marker always (re)sets the state to `IN_MAIN_CONTAINER`
with depth 1 — also when already inside; a div-open without the marker
increments the depth exactly when already inside; a div-close while inside
decrements the depth and returns to `OUTSIDE` exactly at depth 0. -/
theorem main_container_step_characterization (s : ScanState) (c : String) :
    ((handle_starttag s "div" c).in_main_tags_container,
      (handle_starttag s "div" c).main_container_depth) = mainOpenSpec s c ∧
    ((handle_endtag s "div").in_main_tags_container,
      (handle_endtag s "div").main_container_depth) = mainCloseSpec s := by
  constructor
  · cases h1 : strContains c "tags_e5a45e" <;>
      cases h2 : s.in_main_tags_container <;>
        simp [handle_starttag, mainOpenSpec, h1, h2] <;>
          (repeat' split) <;> simp_all
  · cases h2 : s.in_main_tags_container <;>
      simp [handle_endtag, mainCloseSpec, h2] <;>
        (repeat' split) <;> simp_all [beq_iff_eq]

/-- Claim C6, counterexample: `merge_tags` keeps duplicates — merge mode
copies a duplicated `existing_tags` list unchanged, and replace mode
returns a duplicated `new_tags` list verbatim. -/
theorem merge_duplicates_refutes :
    merge_tags ["a", "a"] [] "merge" = ["a", "a"] ∧
    merge_tags [] ["b", "b"] "replace" = ["b", "b"] ∧
    ¬ (["a", "a"] : List String).Nodup ∧
    ¬ (["b", "b"] : List String).Nodup :=
  ⟨rfl, rfl, by decide, by decide⟩

/-- Claim C6 (amended): the scanner's output and `process`'s output are
always duplicate-free; `merge_tags` in merge mode is duplicate-free
provided `existing_tags` is, and in replace mode provided `new_tags` is
(duplicates already present in those inputs are passed through). -/
theorem tag_lists_nodup :
    (∀ evs, (scanRun evs).tags.Nodup) ∧
    (∀ ex rules tags, (process ex rules tags).Nodup) ∧
    (∀ existing new, existing.Nodup → (merge_tags existing new "merge").Nodup) ∧
    (∀ (existing new : List String), new.Nodup →
      (merge_tags existing new "replace").Nodup) := by
  refine ⟨?_, ?_, ?_, ?_⟩
  · intro evs
    exact foldl_scanStep_tags_nodup evs initScanState (by simp [initScanState])
  · intro ex rules tags
    rw [process, processGo_eq ex rules tags []]
    exact dedupGo_nodup _ [] (by simp)
  · intro existing new h
    simpa [merge_tags] using mergeFoldGo_nodup new existing h
  · intro existing new h
    simpa [merge_tags] using h

/-- Witness for C6 at concrete inputs. -/
theorem tag_lists_nodup_witness :
    (["a"] : List String).Nodup ∧
    (merge_tags ["a"] ["b", "a"] "merge").Nodup ∧
    (merge_tags ["x"] ["a", "b"] "replace").Nodup :=
  ⟨by decide, tag_lists_nodup.2.2.1 ["a"] ["b", "a"] (by decide),
    tag_lists_nodup.2.2.2 ["x"] ["a", "b"] (by decide)⟩

/-- Claim C7 (confirmed): `process` visits the tags in order, drops those
in the exclude set, substitutes the rest through the replace map (identity
when absent), and deduplicates on the post-substitution value keeping
first occurrences; on the spec's example it yields `["a", "z"]`. -/
theorem process_dedup_characterization :
    (∀ ex rules tags, process ex rules tags =
        dedupKeepFirst ((tags.filter (fun t => !ex.contains t)).map
          (fun t => (List.lookup t rules).getD t))) ∧
    process ["b"] [("c", "z")] ["a", "b", "c"] = ["a", "z"] := by
  constructor
  · intro ex rules tags
    exact processGo_eq ex rules tags []
  · decide

/-- Claim C8 (confirmed): a URL failing validation yields the fixed
invalid-domain failure result, independently of the fetch oracle — the
quantification over `tf` with a constant result formalizes that no HTTP
attempt is consulted. -/
theorem fetch_tags_invalid_url (tf : String → TryResult) (url : String)
    (h : is_valid_naobaijin_url url = false) :
    fetch_tags tf url =
      { success := false, tags := [], error := some invalidUrlMsg, title := none } := by
  simp [fetch_tags, h]

/-- Witness for C8 on an unrelated domain. -/
theorem fetch_tags_invalid_url_witness :
    is_valid_naobaijin_url "https://example.com/x" = false ∧
    fetch_tags (fun _ => { tags := none, title := none, error := none })
        "https://example.com/x" =
      { success := false, tags := [], error := some invalidUrlMsg, title := none } :=
  ⟨by decide, fetch_tags_invalid_url _ _ (by decide)⟩

/-- Claim C10 (confirmed): every `fetch_tags` result has `success = true`
exactly when `tags` is non-empty, and `error = none` exactly when
`success = true`. -/
theorem fetch_result_invariant (tf : String → TryResult) (url : String) :
    ((fetch_tags tf url).success = true ↔ (fetch_tags tf url).tags ≠ []) ∧
    ((fetch_tags tf url).error = none ↔ (fetch_tags tf url).success = true) := by
  cases hv : is_valid_naobaijin_url url with
  | false => simp [fetch_tags, hv]
  | true =>
    cases h1 : pyTruthyTags (tf (rstripSlash url ++ "/0")).tags with
    | true =>
      have hne := pyTruthyTags_getD h1
      simp [fetch_tags, hv, h1, hne]
    | false =>
      cases h2 : pyTruthyTags (tf (rstripSlash url)).tags with
      | true =>
        have hne := pyTruthyTags_getD h2
        simp [fetch_tags, hv, h1, h2, hne]
      | false => simp [fetch_tags, hv, h1, h2]

/-- Claim C4, counterexample: with well-behaved collaborators and an
evaluated action list containing a fetch-forum-tags action whose value is
the empty dict, the hook takes the `no_fetch_forum_tags_action` return
path instead of invoking the executor with an empty configuration — the
`if not fetch_forum_tags_config` check treats the defaulted empty dict as
absent. -/
theorem link_hook_empty_config_refutes :
    hasFetchAction emptyCfgActions = true ∧
    envEmptyCfg.evaluate = Except.ok emptyCfgActions ∧
    auto_run_forum_tags_on_link_update envEmptyCfg = some HookResult.noFetchAction :=
  ⟨rfl, rfl, rfl⟩

/-- Claim C4 (amended): with the collaborators succeeding up to rule
evaluation, the hook returns `{run: true, actions: 0}` on an empty action
list; it returns the `no_fetch_forum_tags_action` result when the first
fetch-forum-tags configuration is absent or falsy — that is, when no such
action exists, or its value is the empty dict or not a mapping (defaulted
to the empty dict); only when the first fetch action's configuration is a
non-empty dict is the executor invoked, with a plan containing solely that
configuration. -/
theorem link_hook_characterization (env : HookEnv) (active : String)
    (h1 : env.load_config = .ok (some active)) (h2 : active ≠ "")
    (rs : PyVal) (h3 : env.get_ruleset active = .ok (some rs))
    (h4 : pyTruthy rs = true)
    (card : PyVal) (h5 : env.card_lookup = .ok (some card))
    (h6 : pyTruthy card = true)
    (ui : PyVal) (h7 : env.load_ui_data = .ok ui)
    (k : PyVal) (h8 : env.resolve_ui_key = .ok k)
    (acts : List RuleAction) (h9 : env.evaluate = .ok acts) :
    (acts = [] → auto_run_forum_tags_on_link_update env = some .noActions) ∧
    (acts ≠ [] → pyTruthyOptVal (firstFetchConfig acts) = false →
      auto_run_forum_tags_on_link_update env = some .noFetchAction) ∧
    (∀ cfg, firstFetchConfig acts = some cfg → pyTruthy cfg = true →
      auto_run_forum_tags_on_link_update env =
        match env.apply_plan { emptyExecPlan with fetch_forum_tags := some cfg } ui with
        | .ok res => some (.applied res)
        | .error _ => none) := by
  refine ⟨?_, ?_, ?_⟩
  · intro hacts
    subst hacts
    simp [auto_run_forum_tags_on_link_update, bodyB, h1, h2, h3, h4, h5, h6, h7, h8, h9,
      pyTruthyOptStr, pyTruthyOptVal]
  · intro hne hcfg
    have hem : acts.isEmpty = false := by
      cases acts
      · exact absurd rfl hne
      · rfl
    cases hfc : firstFetchConfig acts with
    | none =>
      simp [auto_run_forum_tags_on_link_update, bodyB, h1, h2, h3, h4, h5, h6, h7, h8, h9,
        pyTruthyOptStr, pyTruthyOptVal, hem, hfc]
    | some v =>
      have hv : pyTruthy v = false := by simpa [pyTruthyOptVal, hfc] using hcfg
      simp [auto_run_forum_tags_on_link_update, bodyB, h1, h2, h3, h4, h5, h6, h7, h8, h9,
        pyTruthyOptStr, pyTruthyOptVal, hem, hfc, hv]
  · intro cfg hcfg htr
    have hem : acts.isEmpty = false := by
      cases acts
      · simp [firstFetchConfig] at hcfg
      · rfl
    cases happ : env.apply_plan { emptyExecPlan with fetch_forum_tags := some cfg } ui with
    | ok res =>
      simp [auto_run_forum_tags_on_link_update, bodyB, h1, h2, h3, h4, h5, h6, h7, h8, h9,
        pyTruthyOptStr, pyTruthyOptVal, hem, hcfg, htr, happ]
    | error e =>
      simp [auto_run_forum_tags_on_link_update, bodyB, h1, h2, h3, h4, h5, h6, h7, h8, h9,
        pyTruthyOptStr, pyTruthyOptVal, hem, hcfg, htr, happ]

/-- Witness for C4 at the spec's example action list: the `add_tag` action
is ignored, the first fetch action's non-empty configuration is used, the
second is discarded, and the executor result is returned. -/
theorem link_hook_characterization_witness :
    auto_run_forum_tags_on_link_update envDemo =
      some (HookResult.applied (PyVal.pystr "applied")) := by
  have h := (link_hook_characterization envDemo "rs1" rfl (by decide)
    (.pydict [("name", .pystr "rs")]) rfl rfl
    (.pydict [("id", .pystr "c1")]) rfl rfl
    (.pydict []) rfl (.pystr "k") rfl
    demoActions rfl).2.2
    (.pydict [("exclude", .pystr "其他")]) rfl rfl
  exact h.trans rfl

/-- Claim C9 (confirmed): whatever the collaborators do, a failure raised
anywhere inside either hook's body is caught at the hook boundary and
turned into a `None` return; the hooks' return type carries no error case,
so nothing propagates to the caller. -/
theorem hooks_never_raise :
    (∀ env e, bodyA env = Except.error e → auto_run_rules_on_card env = none) ∧
    (∀ env e, bodyB env = Except.error e → auto_run_forum_tags_on_link_update env = none) := by
  constructor
  · intro env e h
    simp [auto_run_rules_on_card, h]
  · intro env e h
    simp [auto_run_forum_tags_on_link_update, h]

/-- Witness for C9: with every collaborator raising, both hooks return
`None`. -/
theorem hooks_never_raise_witness :
    auto_run_rules_on_card envErr = none ∧
    auto_run_forum_tags_on_link_update envErr = none :=
  ⟨hooks_never_raise.1 envErr "boom" rfl, hooks_never_raise.2 envErr "boom" rfl⟩

end STManager
